import Mathlib

/-!
Verification of the reward-accruing staking ledger
(`programs/staking/programs/staking/src`): a shallow embedding of the
pool-accounting engine — the `StakingPool` / `UserStake` data model, the
lazy reward-per-token accumulator, and the stake / unstake / claim /
update_pool instruction handlers — together with theorems settling the
specification's claims about it.

Machine integers are modelled as `Nat` (for `u64` / `u128`) and `Int`
(for `i64`), with the Rust `checked_*` operations made explicit as
`Option`-valued functions that fail exactly on overflow of the
corresponding width, and `as u64` / `as u128` casts made explicit as
`% 2 ^ 64` truncation / two's-complement reinterpretation.

Each instruction handler is embedded as a function from a ledger state
to `Except StakingError` of a result: on Solana an instruction that
returns an error aborts the whole transaction and every account write is
rolled back, so an `.error` outcome leaves the ledger state unchanged by
construction, which is exactly the runtime's atomicity guarantee.
-/

/-- Source `u64::checked_add`: `none` exactly when the sum overflows 64 bits. -/
def checkedAdd64 (a b : Nat) : Option Nat :=
  if a + b < 2 ^ 64 then some (a + b) else none

/-- Source `u64::checked_sub`: `none` exactly on underflow. -/
def checkedSub64 (a b : Nat) : Option Nat :=
  if b ≤ a then some (a - b) else none

/-- Source `u128::checked_add`: `none` exactly when the sum overflows 128 bits. -/
def checkedAdd128 (a b : Nat) : Option Nat :=
  if a + b < 2 ^ 128 then some (a + b) else none

/-- Source `u128::checked_sub`: `none` exactly on underflow. -/
def checkedSub128 (a b : Nat) : Option Nat :=
  if b ≤ a then some (a - b) else none

/-- Source `u128::checked_mul`: `none` exactly when the product overflows 128 bits. -/
def checkedMul128 (a b : Nat) : Option Nat :=
  if a * b < 2 ^ 128 then some (a * b) else none

/-- Source `u128::checked_div`: `none` exactly on a zero divisor. -/
def checkedDiv128 (a b : Nat) : Option Nat :=
  if b = 0 then none else some (a / b)

/-- The Rust cast `x as u128` applied to an `i64` value: sign-extend and
reinterpret, i.e. reduce modulo `2 ^ 128`. -/
def i64AsU128 (d : Int) : Nat :=
  (d % (2 : Int) ^ 128).toNat

/-- Source `constants::REWARD_PRECISION`, the 1e18 accumulator scaling. -/
def REWARD_PRECISION : Nat := 1000000000000000000

/-- Source `constants::RATE_PRECISION`, the 1e9 reward-rate scaling. -/
def RATE_PRECISION : Nat := 1000000000

/-- Source `constants::MIN_STAKE_AMOUNT`. -/
def MIN_STAKE_AMOUNT : Nat := 1000000

/-- Source `constants::MAX_STAKE_AMOUNT`. -/
def MAX_STAKE_AMOUNT : Nat := 1000000000000

/-- Source `constants::MIN_LOCK_DURATION` (1 day in seconds). -/
def MIN_LOCK_DURATION : Int := 86400

/-- Source `constants::MAX_LOCK_DURATION` (365 days in seconds). -/
def MAX_LOCK_DURATION : Int := 31536000

/-- Source `constants::MIN_REWARD_RATE`. -/
def MIN_REWARD_RATE : Nat := 1

/-- Source `constants::MAX_REWARD_RATE`. -/
def MAX_REWARD_RATE : Nat := 1000000000

/-- Source `constants::is_valid_stake_amount`. -/
def is_valid_stake_amount (amount : Nat) : Bool :=
  decide (MIN_STAKE_AMOUNT ≤ amount) && decide (amount ≤ MAX_STAKE_AMOUNT)

/-- Source `constants::is_valid_lock_duration`. -/
def is_valid_lock_duration (duration : Int) : Bool :=
  decide (MIN_LOCK_DURATION ≤ duration) && decide (duration ≤ MAX_LOCK_DURATION)

/-- Source `constants::is_valid_reward_rate`. -/
def is_valid_reward_rate (rate : Nat) : Bool :=
  decide (MIN_REWARD_RATE ≤ rate) && decide (rate ≤ MAX_REWARD_RATE)

/-- Source `state::StakingPool`, restricted to the pool-accounting fields.
The `Pubkey` fields (`authority`, mints, vaults) are pure addressing and
never read by the accounting computations; vault token balances live in
`LedgerState`. Field widths: `reward_rate`, `total_staked` are `u64`;
`reward_per_token_stored` is `u128`; the times are `i64`. -/
structure StakingPool where
  reward_rate : Nat
  total_staked : Nat
  last_update_time : Int
  reward_per_token_stored : Nat
  lock_duration : Int
  is_active : Bool
  created_at : Int
  deriving Repr, DecidableEq

/-- Source `state::UserStake`, restricted to the accounting fields. `amount`
and `rewards` are `u64`, `reward_per_token_paid` is `u128`, the times
are `i64`. -/
structure UserStake where
  amount : Nat
  reward_per_token_paid : Nat
  rewards : Nat
  stake_time : Int
  unlock_time : Int
  is_active : Bool
  deriving Repr, DecidableEq

/-- The `and_then` chain inside `StakingPool::calculate_reward_per_token`
that computes the additional reward per token:
`(reward_rate as u128).checked_mul(time_elapsed)`
`.and_then(|x| x.checked_mul(1e18)).and_then(|x| x.checked_div(total_staked))`. -/
def StakingPool.additionalRewardPerToken (pool : StakingPool) (current_time : Int) :
    Option Nat :=
  (checkedMul128 pool.reward_rate
      (i64AsU128 (current_time - pool.last_update_time))).bind
    (fun x => (checkedMul128 x REWARD_PRECISION).bind
      (fun y => checkedDiv128 y pool.total_staked))

/-- Source `StakingPool::calculate_reward_per_token` (state.rs): if nothing is
staked return the stored accumulator; otherwise add
`reward_rate * time_elapsed * 1e18 / total_staked`, with every
intermediate overflow replaced by `unwrap_or(0)` and an overflow of the
final addition replaced by `unwrap_or(reward_per_token_stored)`. -/
def StakingPool.calculate_reward_per_token (pool : StakingPool) (current_time : Int) :
    Nat :=
  if pool.total_staked = 0 then
    pool.reward_per_token_stored
  else
    let additional := (pool.additionalRewardPerToken current_time).getD 0
    (checkedAdd128 pool.reward_per_token_stored additional).getD
      pool.reward_per_token_stored

/-- Source `StakingPool::can_stake` (state.rs): only checks `is_active`. -/
def StakingPool.can_stake (pool : StakingPool) (_current_time : Int) : Bool :=
  pool.is_active

/-- First statement of `UserStake::calculate_pending_rewards` (state.rs):
`reward_per_token_diff = current.checked_sub(reward_per_token_paid).unwrap_or(0)`. -/
def UserStake.pendingDiff (st : UserStake) (current_reward_per_token : Nat) : Nat :=
  (checkedSub128 current_reward_per_token st.reward_per_token_paid).getD 0

/-- Second statement of `UserStake::calculate_pending_rewards` (state.rs):
`new_rewards = ((amount as u128).checked_mul(diff)`
`.and_then(|x| x.checked_div(1e18)).unwrap_or(0)) as u64`.
The `as u64` cast truncates modulo `2 ^ 64`. -/
def UserStake.pendingNewRewards (st : UserStake) (current_reward_per_token : Nat) : Nat :=
  (((checkedMul128 st.amount (st.pendingDiff current_reward_per_token)).bind
      (fun x => checkedDiv128 x REWARD_PRECISION)).getD 0) % 2 ^ 64

/-- Source `UserStake::calculate_pending_rewards` (state.rs): the two statements
above followed by `rewards.checked_add(new_rewards).unwrap_or(rewards)`. -/
def UserStake.calculate_pending_rewards (st : UserStake) (current_reward_per_token : Nat) :
    Nat :=
  (checkedAdd64 st.rewards (st.pendingNewRewards current_reward_per_token)).getD st.rewards

/-- Source `UserStake::can_unstake` (state.rs): `is_active && current_time >= unlock_time`. -/
def UserStake.can_unstake (st : UserStake) (current_time : Int) : Bool :=
  st.is_active && decide (st.unlock_time ≤ current_time)

/-- The subset of `error::StakingError` variants reachable through the
embedded instruction handlers, plus `AccountAlreadyInitialized` /
`AccountNotInitialized`, which model the Anchor `init` constraint
failing on an existing `user_stake` PDA and an instruction being handed
a `user_stake` PDA that does not exist. -/
inductive StakingError where
  | PoolNotActive
  | StakeAmountTooSmall
  | StakeAmountTooLarge
  | InsufficientBalance
  | AccountAlreadyInitialized
  | AccountNotInitialized
  | InactiveStake
  | NoActiveStake
  | StakeStillLocked
  | CannotUnstakeZero
  | InsufficientTokenBalance
  | InsufficientRewardTokens
  | RewardCalculationOverflow
  | MathOverflow
  | InvalidTimestamp
  | InvalidRewardRate
  | InvalidLockDuration
  | TokenTransferFailed
  deriving Repr, DecidableEq

/-- One pool's on-chain ledger: the pool account, the existing
`user_stake` PDAs keyed by user (an account exists exactly while it is
rent-paid: created by `stake`'s `init`, removed by `unstake`'s
`close = user`), and the two vault token-account balances (`u64`). -/
structure LedgerState where
  pool : StakingPool
  stakes : List (Nat × UserStake)
  stakeVault : Nat
  rewardVault : Nat
  deriving Repr, DecidableEq

/-- Look up the `user_stake` PDA of a user (first match). -/
def lookupStake (user : Nat) : List (Nat × UserStake) → Option UserStake
  | [] => none
  | (u, st) :: rest => if u = user then some st else lookupStake user rest

/-- Remove a user's `user_stake` PDA (first match), modelling
`close = user`. -/
def removeStake (user : Nat) : List (Nat × UserStake) → List (Nat × UserStake)
  | [] => []
  | (u, st) :: rest => if u = user then rest else (u, st) :: removeStake user rest

/-- Overwrite a user's `user_stake` PDA (first match) with a new record. -/
def setStake (user : Nat) (st' : UserStake) :
    List (Nat × UserStake) → List (Nat × UserStake)
  | [] => []
  | (u, st) :: rest =>
    if u = user then (u, st') :: rest else (u, st) :: setStake user st' rest

/-- Sum of `amount` over the stake records with `is_active = true`. -/
def activeAmountSum : List (Nat × UserStake) → Nat
  | [] => 0
  | (_, st) :: rest => (if st.is_active then st.amount else 0) + activeAmountSum rest

/-- The `update_pool_rewards` settlement step, duplicated verbatim in
`stake.rs`, `unstake.rs`, `claim_rewards.rs` and `update_pool.rs`:
store `calculate_reward_per_token(now)` and advance `last_update_time`. -/
def updatePoolRewards (pool : StakingPool) (current_time : Int) : StakingPool :=
  { pool with
      reward_per_token_stored := pool.calculate_reward_per_token current_time
      last_update_time := current_time }

/-- Source `InitializePool::initialize_pool` (initialize_pool.rs): validate the
reward rate and lock duration, then allocate a fresh pool with
`total_staked = 0`, `reward_per_token_stored = 0`,
`last_update_time = now`, `is_active = true` and empty vaults. -/
def initializePoolOp (reward_rate : Nat) (lock_duration : Int) (current_time : Int) :
    Except StakingError LedgerState :=
  if ¬ is_valid_reward_rate reward_rate then .error .InvalidRewardRate
  else if ¬ is_valid_lock_duration lock_duration then .error .InvalidLockDuration
  else .ok
    { pool :=
        { reward_rate := reward_rate
          total_staked := 0
          last_update_time := current_time
          reward_per_token_stored := 0
          lock_duration := lock_duration
          is_active := true
          created_at := current_time }
      stakes := []
      stakeVault := 0
      rewardVault := 0 }

/-- Source `Stake::stake` (stake.rs). Ordering follows the source: the Anchor
account constraints run first (`pool.is_active`, then `init` on the
`user_stake` PDA, which fails if the account already exists), then
`validate_stake` (pool can_stake, amount bounds, caller balance), then
`update_pool_rewards`, `initialize_user_stake`,
`transfer_tokens_to_vault` (an SPL transfer that fails if the vault
balance would overflow `u64`), and `update_pool_state`
(`total_staked.checked_add` or `MathOverflow`). `userBalance` is the
caller's external token-account balance. -/
def stakeOp (s : LedgerState) (user : Nat) (userBalance : Nat) (amount : Nat)
    (current_time : Int) : Except StakingError LedgerState :=
  if ¬ s.pool.is_active then .error .PoolNotActive
  else if (lookupStake user s.stakes).isSome then .error .AccountAlreadyInitialized
  else if ¬ s.pool.can_stake current_time then .error .PoolNotActive
  else if ¬ is_valid_stake_amount amount then
    (if amount < MIN_STAKE_AMOUNT then .error .StakeAmountTooSmall
     else .error .StakeAmountTooLarge)
  else if userBalance < amount then .error .InsufficientBalance
  else
    let pool1 := updatePoolRewards s.pool current_time
    let newStake : UserStake :=
      { amount := amount
        reward_per_token_paid := pool1.reward_per_token_stored
        rewards := 0
        stake_time := current_time
        unlock_time := current_time + pool1.lock_duration
        is_active := true }
    match checkedAdd64 s.stakeVault amount with
    | none => .error .TokenTransferFailed
    | some vault' =>
      match checkedAdd64 pool1.total_staked amount with
      | none => .error .MathOverflow
      | some total' =>
        .ok { s with
                pool := { pool1 with total_staked := total', last_update_time := current_time }
                stakes := (user, newStake) :: s.stakes
                stakeVault := vault' }

/-- Source `Unstake::unstake` (unstake.rs). Ordering follows the source: the
Anchor constraints (`user_stake` exists and `is_active`), then
`validate_unstake` (`is_active`, `can_unstake` else `StakeStillLocked`,
`amount == 0` else `CannotUnstakeZero`), then `update_pool_rewards`,
`calculate_final_rewards` (`rewards.checked_add(pending)` or
`RewardCalculationOverflow`), `transfer_staked_tokens` (stake-vault
balance check), `transfer_reward_tokens` only when `final_rewards > 0`
(reward-vault balance check), and `update_pool_state`
(`total_staked.checked_sub` or `MathOverflow`); on success the
`user_stake` account is closed. Returns the new state with the
principal and reward amounts paid out. -/
def unstakeOp (s : LedgerState) (user : Nat) (current_time : Int) :
    Except StakingError (LedgerState × Nat × Nat) :=
  match lookupStake user s.stakes with
  | none => .error .AccountNotInitialized
  | some st =>
    if ¬ st.is_active then .error .InactiveStake
    else if ¬ st.can_unstake current_time then .error .StakeStillLocked
    else if st.amount = 0 then .error .CannotUnstakeZero
    else
      let pool1 := updatePoolRewards s.pool current_time
      let pending := st.calculate_pending_rewards pool1.reward_per_token_stored
      match checkedAdd64 st.rewards pending with
      | none => .error .RewardCalculationOverflow
      | some final_rewards =>
        let stake_amount := st.amount
        if s.stakeVault < stake_amount then .error .InsufficientTokenBalance
        else if 0 < final_rewards ∧ s.rewardVault < final_rewards then
          .error .InsufficientRewardTokens
        else
          match checkedSub64 pool1.total_staked stake_amount with
          | none => .error .MathOverflow
          | some total' =>
            .ok
              ({ s with
                   pool := { pool1 with total_staked := total', last_update_time := current_time }
                   stakes := removeStake user s.stakes
                   stakeVault := s.stakeVault - stake_amount
                   rewardVault := s.rewardVault - final_rewards },
               stake_amount, final_rewards)

/-- Source `ClaimRewards::claim_rewards` (claim_rewards.rs). Ordering follows
the source: the Anchor constraints (`user_stake` exists and
`is_active`), then `validate_claim` (`is_active`, `amount == 0` else
`NoActiveStake`), then `update_pool_rewards`,
`calculate_claimable_rewards` (`rewards.checked_add(pending)` or
`RewardCalculationOverflow`), `transfer_reward_tokens` only when the
total is positive (reward-vault balance check), and
`update_user_reward_tracking` (`rewards := 0`,
`reward_per_token_paid := reward_per_token_stored`). Returns the new
state with the reward amount paid out. -/
def claimOp (s : LedgerState) (user : Nat) (current_time : Int) :
    Except StakingError (LedgerState × Nat) :=
  match lookupStake user s.stakes with
  | none => .error .AccountNotInitialized
  | some st =>
    if ¬ st.is_active then .error .InactiveStake
    else if st.amount = 0 then .error .NoActiveStake
    else
      let pool1 := updatePoolRewards s.pool current_time
      let pending := st.calculate_pending_rewards pool1.reward_per_token_stored
      match checkedAdd64 st.rewards pending with
      | none => .error .RewardCalculationOverflow
      | some claimable =>
        if 0 < claimable ∧ s.rewardVault < claimable then
          .error .InsufficientRewardTokens
        else
          let st' := { st with
                         rewards := 0
                         reward_per_token_paid := pool1.reward_per_token_stored }
          .ok
            ({ s with
                 pool := pool1
                 stakes := setStake user st' s.stakes
                 rewardVault := s.rewardVault - claimable },
             claimable)

/-- Source `UpdatePool::update_pool` (update_pool.rs): the Anchor constraint
and `validate_update` require `pool.is_active` and a non-negative
elapsed time, then the pool is settled via the shared
`update_pool_rewards` step. -/
def updatePoolOp (s : LedgerState) (current_time : Int) :
    Except StakingError LedgerState :=
  if ¬ s.pool.is_active then .error .PoolNotActive
  else if current_time - s.pool.last_update_time < 0 then .error .InvalidTimestamp
  else .ok { s with pool := updatePoolRewards s.pool current_time }

/-- One ledger operation with its arguments and clock reading. `fund`
models the external SPL transfer by which the authority deposits reward
tokens into the reward vault (initialize_pool.rs: the reward vault
"must be funded by the authority before rewards can be distributed");
it touches no program account. -/
inductive Op where
  | stake (user userBalance amount : Nat) (t : Int)
  | unstake (user : Nat) (t : Int)
  | claim (user : Nat) (t : Int)
  | update (t : Int)
  | fund (amount : Nat)
  deriving Repr, DecidableEq

/-- Apply one operation transactionally: an instruction that errors
rolls back every account write, leaving the ledger unchanged. -/
def step (s : LedgerState) : Op → LedgerState
  | .stake user bal amount t =>
    match stakeOp s user bal amount t with
    | .ok s' => s'
    | .error _ => s
  | .unstake user t =>
    match unstakeOp s user t with
    | .ok (s', _, _) => s'
    | .error _ => s
  | .claim user t =>
    match claimOp s user t with
    | .ok (s', _) => s'
    | .error _ => s
  | .update t =>
    match updatePoolOp s t with
    | .ok s' => s'
    | .error _ => s
  | .fund amount =>
    match checkedAdd64 s.rewardVault amount with
    | some v => { s with rewardVault := v }
    | none => s

/-- Run a sequence of operations from a state. -/
def run (s : LedgerState) (ops : List Op) : LedgerState :=
  ops.foldl step s

/-! ### Concrete scenario states used by the claim theorems -/

/-- C1 scenario pool: `reward_rate = 1e9`, one stake of 100 units,
accumulator 0, last update at `t = 0`. -/
def c1pool : StakingPool :=
  { reward_rate := 1000000000, total_staked := 100, last_update_time := 0,
    reward_per_token_stored := 0, lock_duration := 604800,
    is_active := true, created_at := 0 }

/-- C1 scenario stake: 100 units created at `t = 0`. -/
def c1stake : UserStake :=
  { amount := 100, reward_per_token_paid := 0, rewards := 0,
    stake_time := 0, unlock_time := 604800, is_active := true }

/-- C1 scenario ledger with an amply funded reward vault. -/
def c1state : LedgerState :=
  { pool := c1pool, stakes := [(1, c1stake)],
    stakeVault := 100, rewardVault := 1000000000000000 }

/-- The ledger `claim_rewards` actually produces from `c1state` at
`t = 100`. -/
def c1after : LedgerState :=
  { pool := { reward_rate := 1000000000, total_staked := 100, last_update_time := 100,
              reward_per_token_stored := 1000000000000000000000000000,
              lock_duration := 604800, is_active := true, created_at := 0 },
    stakes := [(1, { amount := 100,
                     reward_per_token_paid := 1000000000000000000000000000,
                     rewards := 0, stake_time := 0, unlock_time := 604800,
                     is_active := true })],
    stakeVault := 100, rewardVault := 999900000000000 }

/-- C2 pool on which the accrual product `rate * elapsed * 1e18`
overflows 128 bits. -/
def c2pool : StakingPool :=
  { reward_rate := 1000000000, total_staked := 5, last_update_time := 0,
    reward_per_token_stored := 7, lock_duration := 604800,
    is_active := true, created_at := 0 }

/-- A large (but representable `i64`) clock reading, `2 ^ 62`. -/
def c2time : Int := 4611686018427387904

/-- Ledger wrapping `c2pool`. -/
def c2state : LedgerState :=
  { pool := c2pool, stakes := [], stakeVault := 5, rewardVault := 0 }

/-- C2 pool on which the accrual product is fine but the final
accumulator addition overflows (`reward_per_token_stored = 2 ^ 128 - 1`). -/
def c2addpool : StakingPool :=
  { reward_rate := 1, total_staked := 1, last_update_time := 0,
    reward_per_token_stored := 340282366920938463463374607431768211455,
    lock_duration := 604800, is_active := true, created_at := 0 }

/-- C2 stake on which `amount * diff` overflows 128 bits. -/
def c2mulstake : UserStake :=
  { amount := 18446744073709551615, reward_per_token_paid := 0, rewards := 3,
    stake_time := 0, unlock_time := 0, is_active := true }

/-- C2 stake on which the final `rewards.checked_add(new_rewards)`
overflows 64 bits (`rewards = 2 ^ 64 - 1`). -/
def c2addstake : UserStake :=
  { amount := 1000000000000000000, reward_per_token_paid := 0,
    rewards := 18446744073709551615,
    stake_time := 0, unlock_time := 0, is_active := true }

/-- C3: the ledger `initialize_pool(rate = 1, lock = 86400)` creates at
`t = 0`. -/
def c3s0 : LedgerState :=
  { pool := { reward_rate := 1, total_staked := 0, last_update_time := 0,
              reward_per_token_stored := 0, lock_duration := 86400,
              is_active := true, created_at := 0 },
    stakes := [], stakeVault := 0, rewardVault := 0 }

/-- C3: a run exercising fund, stake, settle, claim and unstake. -/
def c3ops : List Op :=
  [.fund 1000000, .stake 1 10000000 2000000 0, .update 5, .claim 1 10,
   .unstake 1 86400]

/-- C3: `c3s0` after the authority funds the reward vault. -/
def c3w1 : LedgerState := { c3s0 with rewardVault := 1000000 }

/-- C3: `c3w1` after user 1 stakes 2e6 units at `t = 0`. -/
def c3w2 : LedgerState :=
  { pool := { reward_rate := 1, total_staked := 2000000, last_update_time := 0,
              reward_per_token_stored := 0, lock_duration := 86400,
              is_active := true, created_at := 0 },
    stakes := [(1, { amount := 2000000, reward_per_token_paid := 0, rewards := 0,
                     stake_time := 0, unlock_time := 86400, is_active := true })],
    stakeVault := 2000000, rewardVault := 1000000 }

/-- C3: `c3w1` after `update_pool` at `t = 5`. -/
def c3w1u : LedgerState :=
  { c3w1 with pool := { c3w1.pool with last_update_time := 5 } }

/-- C3: `c3w2` after user 1 unstakes at `t = 86400`. -/
def c3w3 : LedgerState :=
  { pool := { reward_rate := 1, total_staked := 0, last_update_time := 86400,
              reward_per_token_stored := 43200000000000000, lock_duration := 86400,
              is_active := true, created_at := 0 },
    stakes := [], stakeVault := 0, rewardVault := 913600 }

/-- C4: a pool with stake outstanding, used to exercise a settlement
sequence. -/
def c4state : LedgerState :=
  { pool := { reward_rate := 1000000000, total_staked := 50, last_update_time := 0,
              reward_per_token_stored := 0, lock_duration := 604800,
              is_active := true, created_at := 0 },
    stakes := [], stakeVault := 0, rewardVault := 0 }

/-- C4: `c4state` settled at `t = 1`. -/
def c4after : LedgerState :=
  { c4state with
      pool := { c4state.pool with
                  last_update_time := 1
                  reward_per_token_stored := 20000000000000000000000000 } }

/-- C5: a ledger in which user 1 already has an active stake. -/
def c5state : LedgerState :=
  { pool := { reward_rate := 1000000000, total_staked := 2000000,
              last_update_time := 0, reward_per_token_stored := 0,
              lock_duration := 604800, is_active := true, created_at := 0 },
    stakes := [(1, { amount := 2000000, reward_per_token_paid := 0, rewards := 0,
                     stake_time := 0, unlock_time := 604800, is_active := true })],
    stakeVault := 2000000, rewardVault := 0 }

/-- C6: a ledger in which user 1 has an active stake locked until
`t = 604800`. -/
def c6state : LedgerState :=
  { pool := { reward_rate := 1000000000, total_staked := 2000000,
              last_update_time := 0, reward_per_token_stored := 0,
              lock_duration := 604800, is_active := true, created_at := 0 },
    stakes := [(1, { amount := 2000000, reward_per_token_paid := 0, rewards := 0,
                     stake_time := 0, unlock_time := 604800, is_active := true })],
    stakeVault := 2000000, rewardVault := 0 }

/-- C7: an unlocked stake owed 10 reward units against a reward vault
holding only 3. -/
def c7stake : UserStake :=
  { amount := 50, reward_per_token_paid := 0, rewards := 5,
    stake_time := 0, unlock_time := 10, is_active := true }

/-- C7: the ledger wrapping `c7stake`; the stake vault covers the
principal, the reward vault does not cover the rewards. -/
def c7state : LedgerState :=
  { pool := { reward_rate := 0, total_staked := 50, last_update_time := 10,
              reward_per_token_stored := 0, lock_duration := 10,
              is_active := true, created_at := 0 },
    stakes := [(1, c7stake)], stakeVault := 50, rewardVault := 3 }

/-- C8 scenario ledger: stakes of 100 and 300 units at `t = 0`,
`reward_rate = 1e9`, funded reward vault. -/
def c8state : LedgerState :=
  { pool := { reward_rate := 1000000000, total_staked := 400, last_update_time := 0,
              reward_per_token_stored := 0, lock_duration := 604800,
              is_active := true, created_at := 0 },
    stakes := [(1, { amount := 100, reward_per_token_paid := 0, rewards := 0,
                     stake_time := 0, unlock_time := 604800, is_active := true }),
               (2, { amount := 300, reward_per_token_paid := 0, rewards := 0,
                     stake_time := 0, unlock_time := 604800, is_active := true })],
    stakeVault := 400, rewardVault := 1000000000000000 }

/-- C8: `c8state` after user 1 claims at `t = 10`. -/
def c8mid : LedgerState :=
  { pool := { reward_rate := 1000000000, total_staked := 400, last_update_time := 10,
              reward_per_token_stored := 25000000000000000000000000,
              lock_duration := 604800, is_active := true, created_at := 0 },
    stakes := [(1, { amount := 100,
                     reward_per_token_paid := 25000000000000000000000000,
                     rewards := 0, stake_time := 0, unlock_time := 604800,
                     is_active := true }),
               (2, { amount := 300, reward_per_token_paid := 0, rewards := 0,
                     stake_time := 0, unlock_time := 604800, is_active := true })],
    stakeVault := 400, rewardVault := 999997500000000 }

/-- C8: `c8mid` after user 2 claims at `t = 10`. -/
def c8after : LedgerState :=
  { pool := { reward_rate := 1000000000, total_staked := 400, last_update_time := 10,
              reward_per_token_stored := 25000000000000000000000000,
              lock_duration := 604800, is_active := true, created_at := 0 },
    stakes := [(1, { amount := 100,
                     reward_per_token_paid := 25000000000000000000000000,
                     rewards := 0, stake_time := 0, unlock_time := 604800,
                     is_active := true }),
               (2, { amount := 300,
                     reward_per_token_paid := 25000000000000000000000000,
                     rewards := 0, stake_time := 0, unlock_time := 604800,
                     is_active := true })],
    stakeVault := 400, rewardVault := 999990000000000 }

/-- C9: an active pool with nothing staked. -/
def c9state : LedgerState :=
  { pool := { reward_rate := 5, total_staked := 0, last_update_time := 0,
              reward_per_token_stored := 0, lock_duration := 86400,
              is_active := true, created_at := 0 },
    stakes := [], stakeVault := 0, rewardVault := 0 }

/-- C9: `c9state` settled at `t = 7`. -/
def c9after : LedgerState :=
  { c9state with pool := { c9state.pool with last_update_time := 7 } }

/-- C10: a stake whose accumulator checkpoint (100) is ahead of the
accumulator value it will be evaluated at. -/
def c10stake : UserStake :=
  { amount := 7, reward_per_token_paid := 100, rewards := 42,
    stake_time := 0, unlock_time := 0, is_active := true }

/-! ### Helper lemmas about the accrual step -/

theorem StakingPool.le_calculate_reward_per_token (pool : StakingPool) (t : Int) :
    pool.reward_per_token_stored ≤ pool.calculate_reward_per_token t := by
  unfold StakingPool.calculate_reward_per_token
  by_cases h : pool.total_staked = 0
  · simp [h]
  · simp only [h, if_false]
    unfold checkedAdd128
    split
    · simp
    · simp

theorem StakingPool.calculate_reward_per_token_at_last (pool : StakingPool) :
    pool.calculate_reward_per_token pool.last_update_time =
      pool.reward_per_token_stored := by
  unfold StakingPool.calculate_reward_per_token StakingPool.additionalRewardPerToken
  by_cases h : pool.total_staked = 0
  · simp [h]
  · have hz : i64AsU128 (pool.last_update_time - pool.last_update_time) = 0 := by
      unfold i64AsU128
      simp
    rw [hz]
    have hm : checkedMul128 pool.reward_rate 0 = some 0 := by
      unfold checkedMul128
      simp [Nat.pos_pow_of_pos]
    have hm2 : checkedMul128 0 REWARD_PRECISION = some 0 := by
      unfold checkedMul128
      simp [Nat.pos_pow_of_pos]
    have hd : checkedDiv128 0 pool.total_staked = some 0 := by
      unfold checkedDiv128
      simp [h]
    simp only [h, if_false, hm, Option.bind_some, hm2, hd]
    unfold checkedAdd128
    split
    · simp [hm2, hd]
    · simp [hm2, hd]

theorem updatePoolRewards_at_last (pool : StakingPool) :
    updatePoolRewards pool pool.last_update_time = pool := by
  unfold updatePoolRewards
  rw [pool.calculate_reward_per_token_at_last]

theorem updatePoolRewards_total_staked (pool : StakingPool) (t : Int) :
    (updatePoolRewards pool t).total_staked = pool.total_staked := rfl

theorem updatePoolRewards_is_active (pool : StakingPool) (t : Int) :
    (updatePoolRewards pool t).is_active = pool.is_active := rfl

/-! ### Helper lemmas about the checked arithmetic -/

theorem checkedAdd64_some {a b c : Nat} (h : checkedAdd64 a b = some c) : c = a + b := by
  unfold checkedAdd64 at h
  split at h
  · exact (Option.some.injEq _ _ ▸ h).symm
  · exact Option.noConfusion h

theorem checkedSub64_some {a b c : Nat} (h : checkedSub64 a b = some c) :
    b ≤ a ∧ c = a - b := by
  unfold checkedSub64 at h
  split at h
  · exact ⟨by assumption, (Option.some.injEq _ _ ▸ h).symm⟩
  · exact Option.noConfusion h

/-! ### Helper lemmas about the stake-record list -/

theorem lookupStake_cons (user u : Nat) (st : UserStake) (rest : List (Nat × UserStake)) :
    lookupStake user ((u, st) :: rest) =
      if u = user then some st else lookupStake user rest := rfl

theorem removeStake_cons (user u : Nat) (st : UserStake) (rest : List (Nat × UserStake)) :
    removeStake user ((u, st) :: rest) =
      if u = user then rest else (u, st) :: removeStake user rest := rfl

theorem setStake_cons (user u : Nat) (st' st : UserStake) (rest : List (Nat × UserStake)) :
    setStake user st' ((u, st) :: rest) =
      if u = user then (u, st') :: rest else (u, st) :: setStake user st' rest := rfl

theorem activeAmountSum_cons (u : Nat) (st : UserStake) (rest : List (Nat × UserStake)) :
    activeAmountSum ((u, st) :: rest) =
      (if st.is_active then st.amount else 0) + activeAmountSum rest := rfl

theorem activeAmountSum_remove (user : Nat) :
    ∀ (l : List (Nat × UserStake)) (st : UserStake),
      lookupStake user l = some st → st.is_active = true →
      activeAmountSum l = st.amount + activeAmountSum (removeStake user l) := by
  intro l
  induction l with
  | nil => intro st hlook _; exact Option.noConfusion hlook
  | cons hd rest ih =>
    intro st hlook hact
    obtain ⟨u, s0⟩ := hd
    rw [lookupStake_cons] at hlook
    rw [removeStake_cons, activeAmountSum_cons]
    by_cases h : u = user
    · rw [if_pos h] at hlook
      have hst : s0 = st := Option.some.inj hlook
      subst hst
      rw [if_pos h, hact]
      simp
    · rw [if_neg h] at hlook
      rw [if_neg h, activeAmountSum_cons, ih st hlook hact]
      omega

theorem activeAmountSum_setStake (user : Nat) (st' : UserStake) :
    ∀ (l : List (Nat × UserStake)) (st : UserStake),
      lookupStake user l = some st → st'.amount = st.amount →
      st'.is_active = st.is_active →
      activeAmountSum (setStake user st' l) = activeAmountSum l := by
  intro l
  induction l with
  | nil => intro st hlook _ _; exact Option.noConfusion hlook
  | cons hd rest ih =>
    intro st hlook hamt hact
    obtain ⟨u, s0⟩ := hd
    rw [lookupStake_cons] at hlook
    rw [setStake_cons]
    by_cases h : u = user
    · rw [if_pos h] at hlook
      have hst : s0 = st := Option.some.inj hlook
      subst hst
      rw [if_pos h, activeAmountSum_cons, activeAmountSum_cons, hamt, hact]
    · rw [if_neg h] at hlook
      rw [if_neg h, activeAmountSum_cons, activeAmountSum_cons, ih st hlook hamt hact]

/-! ### Helper lemmas about the instruction handlers -/

theorem stakeOp_ok (s : LedgerState) (user bal amount : Nat) (t : Int)
    (s' : LedgerState) (h : stakeOp s user bal amount t = .ok s') :
    s'.pool.total_staked = s.pool.total_staked + amount ∧
    activeAmountSum s'.stakes = activeAmountSum s.stakes + amount := by
  unfold stakeOp at h
  split at h
  · exact Except.noConfusion h
  split at h
  · exact Except.noConfusion h
  split at h
  · exact Except.noConfusion h
  split at h
  · split at h
    · exact Except.noConfusion h
    · exact Except.noConfusion h
  split at h
  · exact Except.noConfusion h
  split at h
  · exact Except.noConfusion h
  dsimp only at h
  split at h
  · exact Except.noConfusion h
  next total' htotal =>
    have h2 : _ = s' := Except.ok.inj h
    subst h2
    have h3 := checkedAdd64_some htotal
    constructor
    · simpa [updatePoolRewards] using h3
    · rw [activeAmountSum_cons]
      simp [Nat.add_comm]

theorem unstakeOp_ok (s : LedgerState) (user : Nat) (t : Int)
    (s' : LedgerState) (p r : Nat) (h : unstakeOp s user t = .ok (s', p, r)) :
    s'.pool.total_staked + p = s.pool.total_staked ∧
    activeAmountSum s'.stakes + p = activeAmountSum s.stakes := by
  unfold unstakeOp at h
  split at h
  · exact Except.noConfusion h
  next st hlook =>
    split at h
    · exact Except.noConfusion h
    next hactive =>
      split at h
      · exact Except.noConfusion h
      split at h
      · exact Except.noConfusion h
      dsimp only at h
      split at h
      · exact Except.noConfusion h
      next fr hfr =>
        split at h
        · exact Except.noConfusion h
        split at h
        · exact Except.noConfusion h
        split at h
        · exact Except.noConfusion h
        next total' hsub =>
          simp only [Except.ok.injEq, Prod.mk.injEq] at h
          obtain ⟨h1, h2, h3⟩ := h
          subst h1; subst h2; subst h3
          have hact : st.is_active = true := not_not.mp hactive
          obtain ⟨hle, htot⟩ := checkedSub64_some hsub
          rw [updatePoolRewards_total_staked] at hle htot
          have hsum := activeAmountSum_remove user s.stakes st hlook hact
          constructor
          · simp only
            omega
          · simp only
            omega

theorem claimOp_ok (s : LedgerState) (user : Nat) (t : Int)
    (s' : LedgerState) (paid : Nat) (h : claimOp s user t = .ok (s', paid)) :
    s'.pool = updatePoolRewards s.pool t ∧
    activeAmountSum s'.stakes = activeAmountSum s.stakes ∧
    s'.pool.total_staked = s.pool.total_staked := by
  unfold claimOp at h
  split at h
  · exact Except.noConfusion h
  next st hlook =>
    split at h
    · exact Except.noConfusion h
    split at h
    · exact Except.noConfusion h
    dsimp only at h
    split at h
    · exact Except.noConfusion h
    next cl hcl =>
      split at h
      · exact Except.noConfusion h
      simp only [Except.ok.injEq, Prod.mk.injEq] at h
      obtain ⟨h1, h2⟩ := h
      subst h1; subst h2
      refine ⟨rfl, ?_, ?_⟩
      · exact activeAmountSum_setStake user _ s.stakes st hlook rfl rfl
      · exact updatePoolRewards_total_staked s.pool t

theorem updatePoolOp_ok (s : LedgerState) (t : Int) (s' : LedgerState)
    (h : updatePoolOp s t = .ok s') :
    s' = { s with pool := updatePoolRewards s.pool t } := by
  unfold updatePoolOp at h
  split at h
  · exact Except.noConfusion h
  split at h
  · exact Except.noConfusion h
  exact (Except.ok.inj h).symm

theorem step_preserves_total_eq_sum (s : LedgerState) (op : Op)
    (h : s.pool.total_staked = activeAmountSum s.stakes) :
    (step s op).pool.total_staked = activeAmountSum (step s op).stakes := by
  cases op with
  | stake user bal amount t =>
    simp only [step]
    cases hres : stakeOp s user bal amount t with
    | error e => exact h
    | ok s' =>
      obtain ⟨h1, h2⟩ := stakeOp_ok s user bal amount t s' hres
      dsimp only
      omega
  | unstake user t =>
    simp only [step]
    cases hres : unstakeOp s user t with
    | error e => exact h
    | ok res =>
      obtain ⟨s', p, r⟩ := res
      obtain ⟨h1, h2⟩ := unstakeOp_ok s user t s' p r hres
      dsimp only
      omega
  | claim user t =>
    simp only [step]
    cases hres : claimOp s user t with
    | error e => exact h
    | ok res =>
      obtain ⟨s', paid⟩ := res
      obtain ⟨_, h2, h3⟩ := claimOp_ok s user t s' paid hres
      dsimp only
      omega
  | update t =>
    simp only [step]
    cases hres : updatePoolOp s t with
    | error e => exact h
    | ok s' =>
      have h1 := updatePoolOp_ok s t s' hres
      subst h1
      simpa [updatePoolRewards] using h
  | fund amount =>
    simp only [step]
    cases hres : checkedAdd64 s.rewardVault amount with
    | none => exact h
    | some v => exact h

theorem run_preserves_total_eq_sum (ops : List Op) :
    ∀ s : LedgerState, s.pool.total_staked = activeAmountSum s.stakes →
      (run s ops).pool.total_staked = activeAmountSum (run s ops).stakes := by
  induction ops with
  | nil => intro s h; exact h
  | cons op rest ih =>
    intro s h
    exact ih (step s op) (step_preserves_total_eq_sum s op h)

/-- C3: for every reachable sequence of create-pool, fund, stake,
unstake, claim and settle operations, `pool.total_staked` equals the sum
of `amount` over the active `UserStake` records after every operation;
moreover a successful stake adds exactly the deposited amount to both
sides, a successful unstake subtracts exactly the withdrawn principal
from both sides, and successful claim and settle operations change
neither side. -/
theorem c3_total_staked_conservation :
    (∀ (rate : Nat) (dur t0 : Int) (s0 : LedgerState),
        initializePoolOp rate dur t0 = .ok s0 →
        ∀ ops : List Op,
          (run s0 ops).pool.total_staked = activeAmountSum (run s0 ops).stakes) ∧
    (∀ (s : LedgerState) (user bal amount : Nat) (t : Int) (s' : LedgerState),
        stakeOp s user bal amount t = .ok s' →
        s'.pool.total_staked = s.pool.total_staked + amount ∧
        activeAmountSum s'.stakes = activeAmountSum s.stakes + amount) ∧
    (∀ (s : LedgerState) (user : Nat) (t : Int) (s' : LedgerState) (p r : Nat),
        unstakeOp s user t = .ok (s', p, r) →
        s'.pool.total_staked + p = s.pool.total_staked ∧
        activeAmountSum s'.stakes + p = activeAmountSum s.stakes) ∧
    (∀ (s : LedgerState) (user : Nat) (t : Int) (s' : LedgerState) (paid : Nat),
        claimOp s user t = .ok (s', paid) →
        s'.pool.total_staked = s.pool.total_staked ∧
        activeAmountSum s'.stakes = activeAmountSum s.stakes) ∧
    (∀ (s : LedgerState) (t : Int) (s' : LedgerState),
        updatePoolOp s t = .ok s' →
        s'.pool.total_staked = s.pool.total_staked ∧
        activeAmountSum s'.stakes = activeAmountSum s.stakes) := by
  refine ⟨?_, ?_, ?_, ?_, ?_⟩
  · intro rate dur t0 s0 h ops
    have h0 : s0.pool.total_staked = activeAmountSum s0.stakes := by
      unfold initializePoolOp at h
      split at h
      · exact Except.noConfusion h
      split at h
      · exact Except.noConfusion h
      have h2 : _ = s0 := Except.ok.inj h
      subst h2
      rfl
    exact run_preserves_total_eq_sum ops s0 h0
  · intro s user bal amount t s' h
    exact stakeOp_ok s user bal amount t s' h
  · intro s user t s' p r h
    exact unstakeOp_ok s user t s' p r h
  · intro s user t s' paid h
    obtain ⟨_, h2, h3⟩ := claimOp_ok s user t s' paid h
    exact ⟨h3, h2⟩
  · intro s t s' h
    have h1 := updatePoolOp_ok s t s' h
    subst h1
    exact ⟨rfl, rfl⟩

set_option maxRecDepth 8000 in
/-- C3 witness: concrete instantiations of every conjunct of the
conservation theorem. -/
theorem c3_total_staked_conservation_witness :
    ((run c3s0 c3ops).pool.total_staked = activeAmountSum (run c3s0 c3ops).stakes) ∧
    (c3w2.pool.total_staked = c3w1.pool.total_staked + 2000000 ∧
     activeAmountSum c3w2.stakes = activeAmountSum c3w1.stakes + 2000000) ∧
    (c3w3.pool.total_staked + 2000000 = c3w2.pool.total_staked ∧
     activeAmountSum c3w3.stakes + 2000000 = activeAmountSum c3w2.stakes) ∧
    (c3w2.pool.total_staked = c3w2.pool.total_staked ∧
     activeAmountSum c3w2.stakes = activeAmountSum c3w2.stakes) ∧
    (c3w1u.pool.total_staked = c3w1.pool.total_staked ∧
     activeAmountSum c3w1u.stakes = activeAmountSum c3w1.stakes) :=
  ⟨c3_total_staked_conservation.1 1 86400 0 c3s0 rfl c3ops,
   c3_total_staked_conservation.2.1 c3w1 1 2000000 2000000 0 c3w2 rfl,
   c3_total_staked_conservation.2.2.1 c3w2 1 86400 c3w3 2000000 86400 rfl,
   c3_total_staked_conservation.2.2.2.1 c3w2 1 0 c3w2 0 rfl,
   c3_total_staked_conservation.2.2.2.2 c3w1 5 c3w1u rfl⟩

theorem updatePoolRewards_idem (pool : StakingPool) (t : Int) :
    updatePoolRewards (updatePoolRewards pool t) t = updatePoolRewards pool t := by
  have h := updatePoolRewards_at_last (updatePoolRewards pool t)
  have h2 : (updatePoolRewards pool t).last_update_time = t := rfl
  rw [h2] at h
  exact h

/-- C4: every settlement step leaves the accumulator at least as large
as before: a successful `update_pool` instruction performs exactly the
shared `update_pool_rewards` settlement and does not decrease
`reward_per_token_stored`, and along any sequence of settlement steps
with non-decreasing timestamps the accumulator after each step is at
least the accumulator before it. -/
theorem c4_accumulator_monotone :
    (∀ (s : LedgerState) (t : Int) (s' : LedgerState),
        updatePoolOp s t = .ok s' →
        s'.pool = updatePoolRewards s.pool t ∧
        s.pool.reward_per_token_stored ≤ s'.pool.reward_per_token_stored) ∧
    (∀ (pool : StakingPool) (ts : List Int), ts.Sorted (· ≤ ·) →
        ∀ n : Nat,
          ((ts.take n).foldl updatePoolRewards pool).reward_per_token_stored ≤
          ((ts.take (n + 1)).foldl updatePoolRewards pool).reward_per_token_stored) := by
  constructor
  · intro s t s' h
    have h1 := updatePoolOp_ok s t s' h
    subst h1
    exact ⟨rfl, StakingPool.le_calculate_reward_per_token s.pool t⟩
  · intro pool ts _hsorted n
    by_cases hn : ts.length ≤ n
    · rw [List.take_of_length_le hn, List.take_of_length_le (Nat.le_succ_of_le hn)]
    · push_neg at hn
      rw [List.take_succ, List.getElem?_eq_getElem hn]
      simp only [Option.toList_some, List.foldl_append, List.foldl_cons, List.foldl_nil]
      exact StakingPool.le_calculate_reward_per_token _ _

set_option maxRecDepth 8000 in
/-- C4 witness: a successful settlement on a concrete pool and one step
of a concrete non-decreasing settlement sequence. -/
theorem c4_accumulator_monotone_witness :
    (c4after.pool = updatePoolRewards c4state.pool 1 ∧
     c4state.pool.reward_per_token_stored ≤ c4after.pool.reward_per_token_stored) ∧
    ((([1, 3, 3, 8] : List Int).take 1).foldl updatePoolRewards
        c4state.pool).reward_per_token_stored ≤
      ((([1, 3, 3, 8] : List Int).take 2).foldl updatePoolRewards
        c4state.pool).reward_per_token_stored :=
  ⟨c4_accumulator_monotone.1 c4state 1 c4after rfl,
   c4_accumulator_monotone.2 c4state.pool [1, 3, 3, 8] (by decide) 1⟩

/-- C9: settlement is idempotent: if `update_pool` at time `t` succeeds
and produces a state, running `update_pool` again at the same `t` on
that state succeeds and returns it unchanged — every pool field,
including `reward_per_token_stored`, `last_update_time` and
`total_staked`, is exactly as the first call left it. -/
theorem c9_update_pool_idempotent :
    ∀ (s : LedgerState) (t : Int) (s1 : LedgerState),
      updatePoolOp s t = .ok s1 → updatePoolOp s1 t = .ok s1 := by
  intro s t s1 h
  have h1 := updatePoolOp_ok s t s1 h
  subst h1
  unfold updatePoolOp at h
  split at h
  · exact Except.noConfusion h
  next hactive =>
    unfold updatePoolOp
    dsimp only
    rw [updatePoolRewards_is_active, if_neg hactive]
    have hl : (updatePoolRewards s.pool t).last_update_time = t := rfl
    rw [hl, if_neg (by omega), updatePoolRewards_idem]

/-- C9 witness: a concrete settlement at `t = 7` followed by a second
settlement at the same timestamp. -/
theorem c9_update_pool_idempotent_witness :
    updatePoolOp c9state 7 = .ok c9after ∧ updatePoolOp c9after 7 = .ok c9after :=
  ⟨rfl, c9_update_pool_idempotent c9state 7 c9after rfl⟩

/-- C10: `UserStake::calculate_pending_rewards` is total and never
returns less than the stake's existing `rewards`; in particular, when
the accumulator argument is behind the stake's
`reward_per_token_paid` checkpoint it returns exactly `rewards` instead
of underflowing. -/
theorem c10_pending_rewards_never_decrease :
    ∀ (st : UserStake) (c : Nat),
      st.rewards ≤ st.calculate_pending_rewards c ∧
      (c < st.reward_per_token_paid → st.calculate_pending_rewards c = st.rewards) := by
  intro st c
  constructor
  · unfold UserStake.calculate_pending_rewards checkedAdd64
    split
    · simp
    · simp
  · intro hlt
    have hdiff : st.pendingDiff c = 0 := by
      unfold UserStake.pendingDiff checkedSub128
      rw [if_neg (by omega)]
      rfl
    have hnew : st.pendingNewRewards c = 0 := by
      unfold UserStake.pendingNewRewards
      rw [hdiff]
      have hm : checkedMul128 st.amount 0 = some 0 := by
        unfold checkedMul128
        norm_num
      have hd : checkedDiv128 0 REWARD_PRECISION = some 0 := by
        unfold checkedDiv128 REWARD_PRECISION
        norm_num
      simp [hm, hd]
    unfold UserStake.calculate_pending_rewards
    rw [hnew]
    unfold checkedAdd64
    split
    · simp
    · simp

/-- C10 witness: a stake whose checkpoint (100) is ahead of the
accumulator argument (5) keeps exactly its 42 unclaimed reward units. -/
theorem c10_pending_rewards_never_decrease_witness :
    c10stake.calculate_pending_rewards 5 = c10stake.rewards ∧
    c10stake.rewards ≤ c10stake.calculate_pending_rewards 5 :=
  ⟨(c10_pending_rewards_never_decrease c10stake 5).2 (by decide),
   (c10_pending_rewards_never_decrease c10stake 5).1⟩

set_option maxRecDepth 8000 in
/-- C2 counterexample: on `c2pool` at clock `2 ^ 62` the intermediate
checked multiplication `rate * elapsed * 1e18` overflows 128 bits, yet
the settle operation returns success (not a math-overflow error) with
the accumulator silently kept at its old value 7. -/
theorem c2_overflow_not_an_error :
    checkedMul128 (1000000000 * 4611686018427387904) REWARD_PRECISION = none ∧
    c2pool.additionalRewardPerToken c2time = none ∧
    updatePoolOp c2state c2time =
      .ok { c2state with pool := { c2pool with last_update_time := c2time } } :=
  ⟨rfl, rfl, rfl⟩

/-- C2 as amended: overflow in the pool-accumulator update and in the
pending-reward computation never aborts the operation; the overflowing
intermediate is silently replaced — the accumulator keeps its previous
value and the pending-reward computation returns the existing rewards
unchanged. -/
theorem c2_overflow_silently_saturates :
    (∀ (pool : StakingPool) (t : Int),
        pool.additionalRewardPerToken t = none →
        pool.calculate_reward_per_token t = pool.reward_per_token_stored) ∧
    (∀ (pool : StakingPool) (t : Int) (a : Nat),
        pool.additionalRewardPerToken t = some a →
        checkedAdd128 pool.reward_per_token_stored a = none →
        pool.calculate_reward_per_token t = pool.reward_per_token_stored) ∧
    (∀ (st : UserStake) (c : Nat),
        checkedMul128 st.amount (st.pendingDiff c) = none →
        st.calculate_pending_rewards c = st.rewards) ∧
    (∀ (st : UserStake) (c : Nat),
        checkedAdd64 st.rewards (st.pendingNewRewards c) = none →
        st.calculate_pending_rewards c = st.rewards) := by
  refine ⟨?_, ?_, ?_, ?_⟩
  · intro pool t h
    unfold StakingPool.calculate_reward_per_token
    by_cases h0 : pool.total_staked = 0
    · simp [h0]
    · simp only [h0, if_false, h, Option.getD_none]
      unfold checkedAdd128
      split
      · simp
      · simp
  · intro pool t a h hadd
    unfold StakingPool.calculate_reward_per_token
    by_cases h0 : pool.total_staked = 0
    · simp [h0]
    · simp [h0, h, hadd]
  · intro st c h
    have hnew : st.pendingNewRewards c = 0 := by
      unfold UserStake.pendingNewRewards
      rw [h]
      rfl
    unfold UserStake.calculate_pending_rewards
    rw [hnew]
    unfold checkedAdd64
    split
    · simp
    · simp
  · intro st c h
    unfold UserStake.calculate_pending_rewards
    rw [h]
    rfl

set_option maxRecDepth 8000 in
/-- C2 witness: concrete overflowing inputs for each of the four
saturation cases. -/
theorem c2_overflow_silently_saturates_witness :
    c2pool.calculate_reward_per_token c2time = 7 ∧
    c2addpool.calculate_reward_per_token 1 =

      340282366920938463463374607431768211455 ∧
    c2mulstake.calculate_pending_rewards 1180591620717411303424 = 3 ∧
    c2addstake.calculate_pending_rewards 1000000000000000000 =
      18446744073709551615 :=
  ⟨c2_overflow_silently_saturates.1 c2pool c2time rfl,
   c2_overflow_silently_saturates.2.1 c2addpool 1 1000000000000000000 rfl rfl,
   c2_overflow_silently_saturates.2.2.1 c2mulstake 1180591620717411303424 rfl,
   c2_overflow_silently_saturates.2.2.2 c2addstake 1000000000000000000 rfl⟩

/-- C6: an unstake attempted on an active, non-empty stake strictly
before its `unlock_time` fails with `StakeStillLocked`, and the
transactional step leaves the ledger — pool record and stake record —
exactly as it was. -/
theorem c6_locked_unstake_fails_unchanged :
    ∀ (s : LedgerState) (user : Nat) (t : Int) (st : UserStake),
      lookupStake user s.stakes = some st →
      st.is_active = true → 0 < st.amount → t < st.unlock_time →
      unstakeOp s user t = .error .StakeStillLocked ∧
      step s (.unstake user t) = s := by
  intro s user t st hlook hact hamt hlock
  have hcu : st.can_unstake t = false := by
    unfold UserStake.can_unstake
    simp [not_le.mpr hlock]
  have hmain : unstakeOp s user t = .error .StakeStillLocked := by
    unfold unstakeOp
    rw [hlook]
    dsimp only
    rw [if_neg (by simp [hact]), if_pos (by simp [hcu])]
  refine ⟨hmain, ?_⟩
  simp only [step, hmain]

set_option maxRecDepth 8000 in
/-- C6 witness: user 1's stake (unlock at 604800) cannot be unstaked at
`t = 100`. -/
theorem c6_locked_unstake_fails_unchanged_witness :
    unstakeOp c6state 1 100 = .error .StakeStillLocked ∧
    step c6state (.unstake 1 100) = c6state :=
  c6_locked_unstake_fails_unchanged c6state 1 100
    { amount := 2000000, reward_per_token_paid := 0, rewards := 0,
      stake_time := 0, unlock_time := 604800, is_active := true }
    rfl rfl (by decide) (by decide)

/-- C7: an otherwise valid unstake (active unlocked stake, positive
amount, stake vault covering the principal) whose computed final
rewards exceed the reward-vault balance aborts with
`InsufficientRewardTokens`, and the transactional step leaves every
record exactly as it was. -/
theorem c7_underfunded_reward_vault_aborts :
    ∀ (s : LedgerState) (user : Nat) (t : Int) (st : UserStake) (r : Nat),
      lookupStake user s.stakes = some st →
      st.can_unstake t = true → st.amount ≠ 0 →
      checkedAdd64 st.rewards
        (st.calculate_pending_rewards
          (updatePoolRewards s.pool t).reward_per_token_stored) = some r →
      st.amount ≤ s.stakeVault → 0 < r → s.rewardVault < r →
      unstakeOp s user t = .error .InsufficientRewardTokens ∧
      step s (.unstake user t) = s := by
  intro s user t st r hlook hcu hamt hr hsv hrpos hvault
  have hact : st.is_active = true := by
    unfold UserStake.can_unstake at hcu
    exact (Bool.and_eq_true _ _ |>.mp hcu).1
  have hmain : unstakeOp s user t = .error .InsufficientRewardTokens := by
    unfold unstakeOp
    rw [hlook]
    dsimp only
    rw [if_neg (by simp [hact]), if_neg (by simp [hcu]), if_neg (by simpa using hamt),
      hr]
    dsimp only
    rw [if_neg (by omega), if_pos ⟨hrpos, hvault⟩]
  refine ⟨hmain, ?_⟩
  simp only [step, hmain]

set_option maxRecDepth 8000 in
/-- C7 witness: a stake owed 10 reward units against a reward vault
holding 3 cannot be unstaked even though the stake vault covers the
principal. -/
theorem c7_underfunded_reward_vault_aborts_witness :
    unstakeOp c7state 1 10 = .error .InsufficientRewardTokens ∧
    step c7state (.unstake 1 10) = c7state :=
  c7_underfunded_reward_vault_aborts c7state 1 10 c7stake 10
    rfl rfl (by decide) rfl (by decide) (by decide) (by decide)

/-- C5 counterexample: with an existing active stake for user 1,
calling stake again with a valid amount does not succeed: the `init`
constraint on the `user_stake` PDA fails with an
account-already-initialized error. -/
theorem c5_restake_errors_concretely :
    stakeOp c5state 1 1000000000 2000000 50 = .error .AccountAlreadyInitialized ∧
    step c5state (.stake 1 1000000000 2000000 50) = c5state := by
  constructor
  · rfl
  · simp only [step,
      show stakeOp c5state 1 1000000000 2000000 50 =
        .error .AccountAlreadyInitialized from rfl]

/-- C5 as amended: a repeat stake by a participant whose `user_stake`
account already exists always fails (account already initialized) and
changes nothing — there is no top-up path, so neither `stake.amount`
nor `unlock_time` is touched. -/
theorem c5_restake_always_rejected :
    ∀ (s : LedgerState) (user bal amount : Nat) (t : Int) (st : UserStake),
      s.pool.is_active = true →
      lookupStake user s.stakes = some st →
      stakeOp s user bal amount t = .error .AccountAlreadyInitialized ∧
      step s (.stake user bal amount t) = s := by
  intro s user bal amount t st hact hlook
  have hmain : stakeOp s user bal amount t = .error .AccountAlreadyInitialized := by
    unfold stakeOp
    rw [if_neg (by simp [hact]), if_pos (by simp [hlook])]
  refine ⟨hmain, ?_⟩
  simp only [step, hmain]

/-- C5 witness: the amended statement at the concrete ledger `c5state`. -/
theorem c5_restake_always_rejected_witness :
    stakeOp c5state 1 1000000000 3000000 60 = .error .AccountAlreadyInitialized ∧
    step c5state (.stake 1 1000000000 3000000 60) = c5state :=
  c5_restake_always_rejected c5state 1 1000000000 3000000 60
    { amount := 2000000, reward_per_token_paid := 0, rewards := 0,
      stake_time := 0, unlock_time := 604800, is_active := true }
    rfl rfl

set_option maxRecDepth 8000 in
/-- C1: evaluating `claim_rewards` on the spec scenario (pool with
`reward_rate = 1e9`, a single stake of 100 units created at `t = 0`,
claim at `t = 100`). The code pays out 100000000000 reward units —
`rate * time * amount / total_staked` with no division by the 1e9
`RATE_PRECISION` the rate is documented to be scaled by — rather than
the 100 units the scenario requires; the stake's unclaimed rewards are
reset to 0. -/
theorem c1_claim_pays_rate_precision_scaled :
    claimOp c1state 1 100 = .ok (c1after, 100000000000) ∧
    lookupStake 1 c1after.stakes =
      some { amount := 100, reward_per_token_paid := 1000000000000000000000000000,
             rewards := 0, stake_time := 0, unlock_time := 604800,
             is_active := true } ∧
    (100000000000 : Nat) ≠ 100 :=
  ⟨rfl, rfl, by norm_num⟩

set_option maxRecDepth 8000 in
/-- C8 counterexample: in the two-staker scenario (100 and 300 units at
`t = 0`, `reward_rate = 1e9`, both claim at `t = 10`) the first payout
is 2500000000 reward units, not the 25 the claim states. -/
theorem c8_payouts_not_25_and_75 :
    claimOp c8state 1 10 = .ok (c8mid, 2500000000) ∧
    (2500000000 : Nat) ≠ 25 :=
  ⟨rfl, by norm_num⟩

set_option maxRecDepth 8000 in
/-- C8 as amended: the two payouts are in exact ratio 1:3 as claimed,
but their values are 2500000000 and 7500000000 reward units (out of
10000000000 total accrued by the code's formula), not 25 and 75. -/
theorem c8_payout_ratio_one_to_three :
    claimOp c8state 1 10 = .ok (c8mid, 2500000000) ∧
    claimOp c8mid 2 10 = .ok (c8after, 7500000000) ∧
    (7500000000 : Nat) = 3 * 2500000000 ∧
    (2500000000 : Nat) + 7500000000 = 10000000000 :=
  ⟨rfl, rfl, by norm_num, by norm_num⟩
